import Mathlib

/-!
# Verification of the AI-Security-Analyst core against its specification

Shallow embedding of the two core subsystems of the repository:

* `app/services/auth_service.py` — credential verification (`verify_user`),
  token issue (`_jwt`, `issue_tokens`) and token verification
  (`verify_access`, `verify_refresh`) on top of PyJWT's `encode`/`decode`.
* `app/services/analyze_service.py` — prompt assembly
  (`build_user_instruction`), backend invocation (`call_openai`), best-effort
  auditing (`audit_save`), orchestration (`run_analysis`) and the JSON parse
  helper (`try_parse_json`).

Conventions of the embedding:

* Python module-level configuration read from the environment
  (`JWT_SECRET`, `JWT_ACCESS_MIN`, `JWT_REFRESH_MIN`, `OPENAI_MODEL`, the
  OpenAI client) is passed as explicit parameters; the `os.getenv` defaults
  (`"dev-secret"`, 60, 1440) appear at the call sites of the theorems that
  speak about default configuration.
* Machine-level time is an integer count of epoch seconds (`Int`), the value
  `int(datetime.utcnow().timestamp())` computes in Python.
* Exceptions are embedded as `Except` values; a Python function that cannot
  raise is a total Lean function.
* The HMAC-SHA256 signature of PyJWT is embedded symbolically as the
  record of what was signed and with which key (a perfect MAC: a signature
  verifies exactly when key, header and payload coincide).  This is the
  standard symbolic model; no collision of HMAC is representable.
-/

/-! ## Credential store (`users` table) and `verify_user` -/

/-- A row of the `users` table as selected by `verify_user`:
`SELECT id, username, password_hash, role, is_active FROM users`.
SQLite stores the `is_active` flag as an integer, and the Python code tests
it by truthiness (`not row["is_active"]`). -/
structure UserRow where
  id : Int
  username : String
  password_hash : String
  role : String
  is_active : Int
deriving DecidableEq

/-- A SQLite column value as it appears in the row dictionary. -/
inductive DbValue where
  | int (i : Int)
  | str (s : String)
deriving DecidableEq

/-- `dict(row)` for a `sqlite3.Row` produced by the SELECT of `verify_user`:
an association list in column order. -/
def row_dict (r : UserRow) : List (String × DbValue) :=
  [("id", .int r.id), ("username", .str r.username),
   ("password_hash", .str r.password_hash), ("role", .str r.role),
   ("is_active", .int r.is_active)]

/-- `fetchone()` of `SELECT ... FROM users WHERE username=?`: the first row
of the table whose `username` column equals the argument. -/
def users_lookup (db : List UserRow) (username : String) : Option UserRow :=
  db.find? (fun r => r.username == username)

/-- Embedding of `auth_service.verify_user(username, password)`.
`checkpw` stands for `bcrypt.checkpw(password.encode(), hash.encode())`
(first argument the candidate password, second the stored hash) and `db` for
the contents of the `users` table.  Returns `dict(row)` on success and
`None` (here `none`) when the user is missing, inactive, or the password
check fails. -/
def verify_user (checkpw : String → String → Bool) (db : List UserRow)
    (username password : String) : Option (List (String × DbValue)) :=
  match users_lookup db username with
  | none => none
  | some row =>
    if row.is_active == 0 then none
    else if !(checkpw password row.password_hash) then none
    else some (row_dict row)

/-! ## Tokens: PyJWT `encode`/`decode` and the token service -/

/-- The JOSE header of a token; only the `alg` field matters to
`jwt.decode(..., algorithms=[JWT_ALG])`. -/
structure JwtHeader where
  alg : String
deriving DecidableEq

/-- The payload built by `auth_service._jwt`:
`{"sub", "role", "typ", "iat", "exp", "iss"}` with integer second stamps. -/
structure JwtPayload where
  sub : String
  role : String
  typ : String
  iat : Int
  exp : Int
  iss : String
deriving DecidableEq

/-- Symbolic MAC value: records the key and the signed content.  Two
signatures are equal exactly when key, header and payload all agree, which
is the idealised behaviour of HMAC-SHA256 under distinct keys. -/
structure JwtSig where
  key : String
  header : JwtHeader
  payload : JwtPayload
deriving DecidableEq

/-- A serialised token: header, payload, and the signature over both. -/
structure JwtToken where
  header : JwtHeader
  payload : JwtPayload
  sig : JwtSig
deriving DecidableEq

/-- `auth_service.JWT_ALG`. -/
def JWT_ALG : String := "HS256"

/-- The symbolic signing operation shared by `jwt.encode` and the
verification step of `jwt.decode`. -/
def jose_sign (key : String) (h : JwtHeader) (p : JwtPayload) : JwtSig :=
  { key := key, header := h, payload := p }

/-- Embedding of PyJWT `jwt.encode(payload, key, algorithm=alg)`: the token
carries the header `{alg}` and a signature over header and payload. -/
def jwt_encode (payload : JwtPayload) (key : String) (alg : String) : JwtToken :=
  { header := { alg := alg }, payload := payload,
    sig := jose_sign key { alg := alg } payload }

/-- The errors PyJWT `jwt.decode` raises that are reachable here, plus the
`ValueError("wrong token type")` raised by `verify_access`/`verify_refresh`.
Spec names: `invalidAlgorithm`/`invalidSignature` ↦ `BadSignature` family,
`expiredSignature` ↦ `ExpiredToken`, `wrongTokenType` ↦ `WrongTokenType`. -/
inductive JwtError where
  | invalidAlgorithm
  | invalidSignature
  | expiredSignature
  | wrongTokenType
deriving DecidableEq

/-- Embedding of PyJWT `jwt.decode(token, key, algorithms=algorithms)` at
clock reading `now`.  PyJWT's order of checks: the header `alg` must be in
the allow-list (`InvalidAlgorithmError`), then the signature is verified
(`InvalidSignatureError`), and only then are the claims validated —
`exp <= now` raises `ExpiredSignatureError`.  No `issuer`/`audience`
options are passed by the code, so no further claim validation happens. -/
def jwt_decode (tok : JwtToken) (key : String) (algorithms : List String)
    (now : Int) : Except JwtError JwtPayload :=
  if tok.header.alg ∉ algorithms then .error .invalidAlgorithm
  else if tok.sig ≠ jose_sign key tok.header tok.payload then .error .invalidSignature
  else if tok.payload.exp ≤ now then .error .expiredSignature
  else .ok tok.payload

/-- Embedding of `auth_service._jwt(now, sub, role, minutes, typ)`:
`iat = int(now.timestamp())`, `exp = int((now + timedelta(minutes)).timestamp())`
(the integer minute offset commutes with the floor, so `exp = iat + 60·minutes`),
issuer fixed to `"aisa.local"`, signed with the configured secret under
`JWT_ALG`.  The module-level `JWT_SECRET` is the explicit `secret` argument. -/
def jwt_build (now : Int) (sub role : String) (minutes : Nat) (typ : String)
    (secret : String) : JwtToken :=
  jwt_encode
    { sub := sub, role := role, typ := typ, iat := now,
      exp := now + (minutes : Int) * 60, iss := "aisa.local" }
    secret JWT_ALG

/-- Embedding of `auth_service.issue_tokens(username, role)`: one clock
reading `now`, an access token with `ACCESS_MIN` minutes of life and a
refresh token with `REFRESH_MIN` minutes, both for the same subject/role. -/
def issue_tokens (secret : String) (accessMin refreshMin : Nat) (now : Int)
    (username role : String) : JwtToken × JwtToken :=
  (jwt_build now username role accessMin "access" secret,
   jwt_build now username role refreshMin "refresh" secret)

/-- Embedding of `auth_service.verify_access(token)`: PyJWT decode with the
allow-list `[JWT_ALG]`, then a check that the `typ` claim is `"access"`. -/
def verify_access (secret : String) (now : Int) (token : JwtToken) :
    Except JwtError JwtPayload :=
  match jwt_decode token secret [JWT_ALG] now with
  | .error e => .error e
  | .ok claims => if claims.typ ≠ "access" then .error .wrongTokenType else .ok claims

/-- Embedding of `auth_service.verify_refresh(token)`: same as
`verify_access` with expected type `"refresh"`. -/
def verify_refresh (secret : String) (now : Int) (token : JwtToken) :
    Except JwtError JwtPayload :=
  match jwt_decode token secret [JWT_ALG] now with
  | .error e => .error e
  | .ok claims => if claims.typ ≠ "refresh" then .error .wrongTokenType else .ok claims

/-- C1: a single `issue_tokens` call under the default configuration
(access lifetime 60 minutes, refresh lifetime 1440 minutes) returns two
tokens that decode successfully at issue time, share subject and role,
carry the distinct types `"access"`/`"refresh"`, have lifetimes of exactly
3600 s and 86400 s, share the issue-time `iat` stamp, and carry the fixed
issuer `"aisa.local"`. -/
theorem issue_tokens_claims (secret : String) (now : Int) (username role : String) :
    (jwt_decode (issue_tokens secret 60 1440 now username role).1 secret [JWT_ALG] now
        = .ok (issue_tokens secret 60 1440 now username role).1.payload) ∧
    (jwt_decode (issue_tokens secret 60 1440 now username role).2 secret [JWT_ALG] now
        = .ok (issue_tokens secret 60 1440 now username role).2.payload) ∧
    (issue_tokens secret 60 1440 now username role).1.payload.sub = username ∧
    (issue_tokens secret 60 1440 now username role).2.payload.sub = username ∧
    (issue_tokens secret 60 1440 now username role).1.payload.role = role ∧
    (issue_tokens secret 60 1440 now username role).2.payload.role = role ∧
    (issue_tokens secret 60 1440 now username role).1.payload.typ = "access" ∧
    (issue_tokens secret 60 1440 now username role).2.payload.typ = "refresh" ∧
    (issue_tokens secret 60 1440 now username role).1.payload.exp
      - (issue_tokens secret 60 1440 now username role).1.payload.iat = 3600 ∧
    (issue_tokens secret 60 1440 now username role).2.payload.exp
      - (issue_tokens secret 60 1440 now username role).2.payload.iat = 86400 ∧
    (issue_tokens secret 60 1440 now username role).1.payload.iat = now ∧
    (issue_tokens secret 60 1440 now username role).2.payload.iat = now ∧
    (issue_tokens secret 60 1440 now username role).1.payload.iss = "aisa.local" ∧
    (issue_tokens secret 60 1440 now username role).2.payload.iss = "aisa.local" := by
  refine ⟨?_, ?_, rfl, rfl, rfl, rfl, rfl, rfl,
    by simp [issue_tokens, jwt_build, jwt_encode],
    by simp [issue_tokens, jwt_build, jwt_encode], rfl, rfl, rfl, rfl⟩
  · simp [issue_tokens, jwt_build, jwt_encode, jwt_decode, jose_sign, JWT_ALG]
  · simp [issue_tokens, jwt_build, jwt_encode, jwt_decode, jose_sign, JWT_ALG]

/-! ## Sample credential-store data shared by the auth theorems -/

/-- A concrete stand-in for `bcrypt.checkpw`: accepts exactly the pair of
password `"pw1"` against stored hash `"h1"`. -/
def sample_checkpw (password hash : String) : Bool :=
  password == "pw1" && hash == "h1"

/-- A concrete `users` table: one active user and one inactive user. -/
def sample_db : List UserRow :=
  [{ id := 1, username := "realuser", password_hash := "h1", role := "admin",
     is_active := 1 },
   { id := 2, username := "bob", password_hash := "h2", role := "user",
     is_active := 0 }]

/-- C4: the three failure cases of `verify_user` — unknown username,
inactive user, failed password check — all return the very same observable
value `none`, so a caller cannot tell a nonexistent user from a wrong
password. -/
theorem verify_user_failures_indistinguishable
    (checkpw : String → String → Bool) (db : List UserRow)
    (username password : String) :
    (users_lookup db username = none →
      verify_user checkpw db username password = none) ∧
    (∀ row, users_lookup db username = some row → row.is_active = 0 →
      verify_user checkpw db username password = none) ∧
    (∀ row, users_lookup db username = some row → row.is_active ≠ 0 →
      checkpw password row.password_hash = false →
      verify_user checkpw db username password = none) := by
  refine ⟨fun h => by simp [verify_user, h], fun row h h0 => ?_, fun row h h0 hpw => ?_⟩
  · simp [verify_user, h, h0]
  · simp [verify_user, h, h0, hpw]

/-- Witness for C4 at the concrete store: `verify_user` returns `none` for a
nonexistent user, for the inactive user `bob`, and for `realuser` with a
wrong password. -/
theorem verify_user_failures_indistinguishable_witness :
    verify_user sample_checkpw sample_db "nouser" "x" = none ∧
    verify_user sample_checkpw sample_db "bob" "pw1" = none ∧
    verify_user sample_checkpw sample_db "realuser" "wrongpass" = none := by
  refine ⟨(verify_user_failures_indistinguishable sample_checkpw sample_db "nouser" "x").1
      (by decide),
    (verify_user_failures_indistinguishable sample_checkpw sample_db "bob" "pw1").2.1
      { id := 2, username := "bob", password_hash := "h2", role := "user", is_active := 0 }
      (by decide) (by decide),
    (verify_user_failures_indistinguishable sample_checkpw sample_db "realuser" "wrongpass").2.2
      { id := 1, username := "realuser", password_hash := "h1", role := "admin", is_active := 1 }
      (by decide) (by decide) (by decide)⟩

/-- C5 counterexample: on a successful authentication `verify_user` does not
return just the pair `{username, role}` — it returns `dict(row)`, the full
selected row, whose key list is
`["id","username","password_hash","role","is_active"]` and which in
particular exposes the stored `password_hash`. -/
theorem verify_user_success_full_row :
    verify_user sample_checkpw sample_db "realuser" "pw1"
      = some [("id", .int 1), ("username", .str "realuser"),
              ("password_hash", .str "h1"), ("role", .str "admin"),
              ("is_active", .int 1)] ∧
    (["id", "username", "password_hash", "role", "is_active"] ≠ ["username", "role"]) ∧
    verify_user sample_checkpw sample_db "realuser" "pw1"
      ≠ some [("username", .str "realuser"), ("role", .str "admin")] := by
  refine ⟨by decide, by decide, by decide⟩

/-- C5 as amended: for a username/password pair matching an active stored
user, `verify_user` returns the full row dictionary `dict(row)` — whose
`username` and `role` entries are those of the matched user, but which also
carries the `id`, `password_hash` and `is_active` columns. -/
theorem verify_user_success_returns_row_dict
    (checkpw : String → String → Bool) (db : List UserRow)
    (username password : String) (row : UserRow)
    (h : users_lookup db username = some row) (h0 : row.is_active ≠ 0)
    (hpw : checkpw password row.password_hash = true) :
    verify_user checkpw db username password = some (row_dict row) ∧
    (row_dict row).map Prod.fst = ["id", "username", "password_hash", "role", "is_active"] ∧
    (row_dict row).lookup "username" = some (.str row.username) ∧
    (row_dict row).lookup "role" = some (.str row.role) := by
  refine ⟨by simp [verify_user, h, h0, hpw], by simp [row_dict], ?_, ?_⟩
  · simp [row_dict, List.lookup]
  · simp [row_dict, List.lookup]

/-- Witness for the amended C5 at the concrete store: authenticating
`realuser` with the right password yields the full row dictionary. -/
theorem verify_user_success_returns_row_dict_witness :
    verify_user sample_checkpw sample_db "realuser" "pw1"
      = some (row_dict { id := 1, username := "realuser", password_hash := "h1",
                         role := "admin", is_active := 1 }) :=
  (verify_user_success_returns_row_dict sample_checkpw sample_db "realuser" "pw1"
    { id := 1, username := "realuser", password_hash := "h1", role := "admin",
      is_active := 1 }
    (by decide) (by decide) (by decide)).1

/-! ## Expiry / signature precedence and algorithm rejection -/

/-- An expired access payload (`exp = 500`). -/
def expired_payload : JwtPayload :=
  { sub := "alice", role := "analyst", typ := "access", iat := 0, exp := 500,
    iss := "aisa.local" }

/-- An expired token signed with the wrong secret. -/
def forged_expired_token : JwtToken :=
  jwt_encode expired_payload "other-secret" JWT_ALG

/-- C3 counterexample: at clock reading 1000 the token `forged_expired_token`
is expired (`exp = 500 ≤ 1000`) and its signature does not match the shared
secret `"dev-secret"`; both `verify_access` and `verify_refresh` fail with
the signature error, not with `ExpiredToken` — PyJWT verifies the signature
before it validates `exp`, so expiry does not take precedence over a bad
signature. -/
theorem verify_expired_forged_signature_error :
    verify_access "dev-secret" 1000 forged_expired_token = .error .invalidSignature ∧
    verify_refresh "dev-secret" 1000 forged_expired_token = .error .invalidSignature ∧
    JwtError.invalidSignature ≠ JwtError.expiredSignature ∧
    expired_payload.exp ≤ 1000 := by
  refine ⟨rfl, rfl, by decide, by decide⟩

/-- C3 as amended: a token whose signature matches the shared secret (and
whose header carries the allowed algorithm) fails verification with
`ExpiredToken` as soon as `exp ≤ now`; when the signature does not match,
the signature error takes precedence — expiry is only reported for
correctly signed tokens. -/
theorem verify_expiry_and_signature_precedence (secret : String) (now : Int)
    (p : JwtPayload) (tok : JwtToken) :
    (p.exp ≤ now →
      verify_access secret now (jwt_encode p secret JWT_ALG) = .error .expiredSignature ∧
      verify_refresh secret now (jwt_encode p secret JWT_ALG) = .error .expiredSignature) ∧
    (tok.header.alg = JWT_ALG → tok.sig ≠ jose_sign secret tok.header tok.payload →
      verify_access secret now tok = .error .invalidSignature ∧
      verify_refresh secret now tok = .error .invalidSignature) := by
  constructor
  · intro hexp
    constructor
    · simp [verify_access, jwt_decode, jwt_encode, jose_sign, JWT_ALG, hexp]
    · simp [verify_refresh, jwt_decode, jwt_encode, jose_sign, JWT_ALG, hexp]
  · intro halg hsig
    constructor
    · simp [verify_access, jwt_decode, halg, JWT_ALG, hsig]
    · simp [verify_refresh, jwt_decode, halg, JWT_ALG, hsig]

/-- Witness for the amended C3: a correctly signed expired token is rejected
as expired; the same payload signed with the wrong key is rejected for its
signature. -/
theorem verify_expiry_and_signature_precedence_witness :
    (verify_access "dev-secret" 1000 (jwt_encode expired_payload "dev-secret" JWT_ALG)
        = .error .expiredSignature ∧
      verify_refresh "dev-secret" 1000 (jwt_encode expired_payload "dev-secret" JWT_ALG)
        = .error .expiredSignature) ∧
    (verify_access "dev-secret" 1000 forged_expired_token = .error .invalidSignature ∧
      verify_refresh "dev-secret" 1000 forged_expired_token = .error .invalidSignature) :=
  ⟨(verify_expiry_and_signature_precedence "dev-secret" 1000 expired_payload
      forged_expired_token).1 (by decide),
   (verify_expiry_and_signature_precedence "dev-secret" 1000 expired_payload
      forged_expired_token).2 (by decide) (by decide)⟩

/-- C10: `verify_access` and `verify_refresh` decode with the fixed
allow-list `[JWT_ALG] = ["HS256"]`; a token whose header declares any other
algorithm — `"none"` included — is rejected with the algorithm error and is
never returned as a valid claim set. -/
theorem verify_rejects_other_algorithms (secret : String) (now : Int)
    (tok : JwtToken) (halg : tok.header.alg ≠ "HS256") :
    verify_access secret now tok = .error .invalidAlgorithm ∧
    verify_refresh secret now tok = .error .invalidAlgorithm ∧
    (∀ claims, verify_access secret now tok ≠ .ok claims) ∧
    (∀ claims, verify_refresh secret now tok ≠ .ok claims) := by
  refine ⟨?_, ?_, ?_, ?_⟩
  · simp [verify_access, jwt_decode, JWT_ALG, halg]
  · simp [verify_refresh, jwt_decode, JWT_ALG, halg]
  · intro claims
    simp [verify_access, jwt_decode, JWT_ALG, halg]
  · intro claims
    simp [verify_refresh, jwt_decode, JWT_ALG, halg]

/-- Witness for C10: an expired-free, correctly keyed token whose header
declares `alg = "none"` is rejected by both verification operations. -/
theorem verify_rejects_other_algorithms_witness :
    verify_access "dev-secret" 1000
        (jwt_encode { sub := "alice", role := "analyst", typ := "access",
                      iat := 0, exp := 4000, iss := "aisa.local" } "dev-secret" "none")
      = .error .invalidAlgorithm ∧
    verify_refresh "dev-secret" 1000
        (jwt_encode { sub := "alice", role := "analyst", typ := "refresh",
                      iat := 0, exp := 4000, iss := "aisa.local" } "dev-secret" "none")
      = .error .invalidAlgorithm :=
  ⟨(verify_rejects_other_algorithms "dev-secret" 1000
      (jwt_encode { sub := "alice", role := "analyst", typ := "access",
                    iat := 0, exp := 4000, iss := "aisa.local" } "dev-secret" "none")
      (by decide)).1,
   (verify_rejects_other_algorithms "dev-secret" 1000
      (jwt_encode { sub := "alice", role := "analyst", typ := "refresh",
                    iat := 0, exp := 4000, iss := "aisa.local" } "dev-secret" "none")
      (by decide)).2.1⟩

/-! ## Analysis requests and `build_user_instruction` -/

/-- Embedding of `analyze_schema.AnalyzeRequest`.  The pydantic validation
layer guarantees `output_format ∈ {"json","markdown"}` and
`schema ∈ {"risk_assessment","event_summary","policy_alignment"}`; both are
kept as strings because `build_user_instruction` only compares
`output_format` against `"json"`.  `time_window` and `inputs` are optional
and default to `None`. -/
structure AnalyzeRequest where
  input_text : String
  output_format : String := "json"
  schema : String := "risk_assessment"
  time_window : Option String := none
  inputs : Option (List String) := none
deriving DecidableEq

/-- The default inputs list of `build_user_instruction`. -/
def default_inputs : List String := ["logs", "access_records", "policy_text"]

/-- A single-quote character, for Python `repr` of strings. -/
def pySq : String := String.singleton (Char.ofNat 39)

/-- Python `repr` of a `str` as interpolated by an f-string inside a list:
single-quoted.  (The escaping Python applies to quotes and control
characters inside the string is not modelled; every list element used in
this development is a plain identifier-like word.) -/
def pyStrRepr (s : String) : String := pySq ++ s ++ pySq

/-- Python `str` of a `list[str]`, as an f-string renders `{inputs}`:
the elements' `repr`s, comma-space separated, in square brackets. -/
def pyListRepr (l : List String) : String :=
  "[" ++ String.intercalate ", " (l.map pyStrRepr) ++ "]"

/-- Python `x or default` for an optional string: `None` and the empty
string are falsy, so both select the default. -/
def pyOrStr (x : Option String) (dflt : String) : String :=
  match x with
  | none => dflt
  | some s => if s = "" then dflt else s

/-- Python `x or default` for an optional list: `None` and the empty list
are falsy, so both select the default. -/
def pyOrList (x : Option (List String)) (dflt : List String) : List String :=
  match x with
  | none => dflt
  | some l => if l = [] then dflt else l

/-- Embedding of `analyze_service.build_user_instruction(req)`: applies the
Python `or`-defaults to `inputs` and `time_window`, then renders one of two
f-string templates selected by `req.output_format == "json"`.  The string
is concatenated at exactly the granularity of the f-string pieces. -/
def build_user_instruction (req : AnalyzeRequest) : String :=
  if req.output_format = "json" then
    "Produce a " ++ req.schema ++
      " JSON object strictly following the system JSON schema. " ++
      "Context time_window: " ++ pyOrStr req.time_window "Not specified" ++
      ". Inputs: " ++ pyListRepr (pyOrList req.inputs default_inputs) ++ ". " ++
      "Analyze the following content:\n\n" ++ req.input_text
  else
    "Produce a Markdown report using the system Markdown template. " ++
      "Context time_window: " ++ pyOrStr req.time_window "Not specified" ++
      ". Inputs: " ++ pyListRepr (pyOrList req.inputs default_inputs) ++ ". " ++
      "Analyze the following content:\n\n" ++ req.input_text

/-- Associativity of string append, proved through the character lists. -/
theorem string_append_assoc (a b c : String) : a ++ b ++ c = a ++ (b ++ c) := by
  apply String.ext
  simp [String.data_append, List.append_assoc]

/-- The rendering of the JSON template branch. -/
theorem build_user_instruction_json_branch (req : AnalyzeRequest)
    (hfmt : req.output_format = "json") :
    build_user_instruction req
      = "Produce a " ++ req.schema ++
          " JSON object strictly following the system JSON schema. " ++
          "Context time_window: " ++ pyOrStr req.time_window "Not specified" ++
          ". Inputs: " ++ pyListRepr (pyOrList req.inputs default_inputs) ++ ". " ++
          "Analyze the following content:\n\n" ++ req.input_text := by
  unfold build_user_instruction
  rw [if_pos hfmt]

/-- The rendering of the Markdown template branch. -/
theorem build_user_instruction_md_branch (req : AnalyzeRequest)
    (hfmt : req.output_format ≠ "json") :
    build_user_instruction req
      = "Produce a Markdown report using the system Markdown template. " ++
          "Context time_window: " ++ pyOrStr req.time_window "Not specified" ++
          ". Inputs: " ++ pyListRepr (pyOrList req.inputs default_inputs) ++ ". " ++
          "Analyze the following content:\n\n" ++ req.input_text := by
  unfold build_user_instruction
  rw [if_neg hfmt]

/-- A request whose caller-given `inputs` is the empty list and whose
`time_window` is the empty string — both present, both Python-falsy. -/
def req_empty : AnalyzeRequest :=
  { input_text := "X", output_format := "json", schema := "risk_assessment",
    time_window := some "", inputs := some [] }

/-- C9 counterexample: for `req_empty` the caller did supply `inputs`
(`some []`) and `time_window` (`some ""`), yet `build_user_instruction`
renders exactly the same instruction as for the request with both fields
absent: Python's `or`-defaulting treats the empty list and the empty string
as falsy, so the defaults are not used "only when the field is absent" and
the caller-given empty list is not preserved. -/
theorem build_user_instruction_empty_not_preserved :
    req_empty.inputs = some [] ∧ req_empty.inputs ≠ none ∧
    req_empty.time_window = some "" ∧ req_empty.time_window ≠ none ∧
    build_user_instruction req_empty
      = build_user_instruction
          { req_empty with time_window := none, inputs := none } := by
  refine ⟨rfl, by decide, rfl, by decide, rfl⟩

/-- C9 as amended: `build_user_instruction` is a pure function of the
request that (a) embeds the caller-given `inputs` list, in order, whenever
it is present and non-empty, (b) embeds the default list
`["logs","access_records","policy_text"]` when `inputs` is absent or the
empty list, (c) embeds the caller-given `time_window` whenever it is
present and non-empty, (d) embeds the literal `"Not specified"` when
`time_window` is absent or the empty string, (e) embeds `input_text`
verbatim as the suffix of the instruction, and (f) selects the JSON
template exactly when `output_format = "json"` and the Markdown template
otherwise. -/
theorem build_user_instruction_embedding (req : AnalyzeRequest) :
    (∀ l, req.inputs = some l → l ≠ [] →
      ∃ a b, build_user_instruction req = a ++ pyListRepr l ++ b) ∧
    ((req.inputs = none ∨ req.inputs = some []) →
      ∃ a b, build_user_instruction req = a ++ pyListRepr default_inputs ++ b) ∧
    (∀ w, req.time_window = some w → w ≠ "" →
      ∃ a b, build_user_instruction req = a ++ "Context time_window: " ++ w ++ b) ∧
    ((req.time_window = none ∨ req.time_window = some "") →
      ∃ a b, build_user_instruction req
        = a ++ "Context time_window: " ++ "Not specified" ++ b) ∧
    (∃ a, build_user_instruction req = a ++ req.input_text) ∧
    (req.output_format = "json" →
      ∃ b, build_user_instruction req
        = "Produce a " ++ req.schema ++
            " JSON object strictly following the system JSON schema. " ++ b) ∧
    (req.output_format ≠ "json" →
      ∃ b, build_user_instruction req
        = "Produce a Markdown report using the system Markdown template. " ++ b) := by
  refine ⟨?_, ?_, ?_, ?_, ?_, ?_, ?_⟩
  · intro l hl hne
    have hpyl : pyOrList req.inputs default_inputs = l := by simp [pyOrList, hl, hne]
    by_cases hfmt : req.output_format = "json"
    · exact ⟨"Produce a " ++ req.schema ++
          " JSON object strictly following the system JSON schema. " ++
          "Context time_window: " ++ pyOrStr req.time_window "Not specified" ++
          ". Inputs: ",
        ". " ++ "Analyze the following content:\n\n" ++ req.input_text,
        by rw [build_user_instruction_json_branch req hfmt, hpyl]
           apply String.ext
           simp only [String.data_append, List.append_assoc]⟩
    · exact ⟨"Produce a Markdown report using the system Markdown template. " ++
          "Context time_window: " ++ pyOrStr req.time_window "Not specified" ++
          ". Inputs: ",
        ". " ++ "Analyze the following content:\n\n" ++ req.input_text,
        by rw [build_user_instruction_md_branch req hfmt, hpyl]
           apply String.ext
           simp only [String.data_append, List.append_assoc]⟩
  · intro hl
    have hpyl : pyOrList req.inputs default_inputs = default_inputs := by
      rcases hl with h | h <;> simp [pyOrList, h]
    by_cases hfmt : req.output_format = "json"
    · exact ⟨"Produce a " ++ req.schema ++
          " JSON object strictly following the system JSON schema. " ++
          "Context time_window: " ++ pyOrStr req.time_window "Not specified" ++
          ". Inputs: ",
        ". " ++ "Analyze the following content:\n\n" ++ req.input_text,
        by rw [build_user_instruction_json_branch req hfmt, hpyl]
           apply String.ext
           simp only [String.data_append, List.append_assoc]⟩
    · exact ⟨"Produce a Markdown report using the system Markdown template. " ++
          "Context time_window: " ++ pyOrStr req.time_window "Not specified" ++
          ". Inputs: ",
        ". " ++ "Analyze the following content:\n\n" ++ req.input_text,
        by rw [build_user_instruction_md_branch req hfmt, hpyl]
           apply String.ext
           simp only [String.data_append, List.append_assoc]⟩
  · intro w hw hne
    have hptw : pyOrStr req.time_window "Not specified" = w := by
      simp [pyOrStr, hw, hne]
    by_cases hfmt : req.output_format = "json"
    · exact ⟨"Produce a " ++ req.schema ++
          " JSON object strictly following the system JSON schema. ",
        ". Inputs: " ++ pyListRepr (pyOrList req.inputs default_inputs) ++ ". " ++
          "Analyze the following content:\n\n" ++ req.input_text,
        by rw [build_user_instruction_json_branch req hfmt, hptw]
           apply String.ext
           simp only [String.data_append, List.append_assoc]⟩
    · exact ⟨"Produce a Markdown report using the system Markdown template. ",
        ". Inputs: " ++ pyListRepr (pyOrList req.inputs default_inputs) ++ ". " ++
          "Analyze the following content:\n\n" ++ req.input_text,
        by rw [build_user_instruction_md_branch req hfmt, hptw]
           apply String.ext
           simp only [String.data_append, List.append_assoc]⟩
  · intro hw
    have hptw : pyOrStr req.time_window "Not specified" = "Not specified" := by
      rcases hw with h | h <;> simp [pyOrStr, h]
    by_cases hfmt : req.output_format = "json"
    · exact ⟨"Produce a " ++ req.schema ++
          " JSON object strictly following the system JSON schema. ",
        ". Inputs: " ++ pyListRepr (pyOrList req.inputs default_inputs) ++ ". " ++
          "Analyze the following content:\n\n" ++ req.input_text,
        by rw [build_user_instruction_json_branch req hfmt, hptw]
           apply String.ext
           simp only [String.data_append, List.append_assoc]⟩
    · exact ⟨"Produce a Markdown report using the system Markdown template. ",
        ". Inputs: " ++ pyListRepr (pyOrList req.inputs default_inputs) ++ ". " ++
          "Analyze the following content:\n\n" ++ req.input_text,
        by rw [build_user_instruction_md_branch req hfmt, hptw]
           apply String.ext
           simp only [String.data_append, List.append_assoc]⟩
  · by_cases hfmt : req.output_format = "json"
    · exact ⟨"Produce a " ++ req.schema ++
          " JSON object strictly following the system JSON schema. " ++
          "Context time_window: " ++ pyOrStr req.time_window "Not specified" ++
          ". Inputs: " ++ pyListRepr (pyOrList req.inputs default_inputs) ++ ". " ++
          "Analyze the following content:\n\n",
        by rw [build_user_instruction_json_branch req hfmt]⟩
    · exact ⟨"Produce a Markdown report using the system Markdown template. " ++
          "Context time_window: " ++ pyOrStr req.time_window "Not specified" ++
          ". Inputs: " ++ pyListRepr (pyOrList req.inputs default_inputs) ++ ". " ++
          "Analyze the following content:\n\n",
        by rw [build_user_instruction_md_branch req hfmt]⟩
  · intro hfmt
    exact ⟨"Context time_window: " ++ pyOrStr req.time_window "Not specified" ++
        ". Inputs: " ++ pyListRepr (pyOrList req.inputs default_inputs) ++ ". " ++
        "Analyze the following content:\n\n" ++ req.input_text,
      by rw [build_user_instruction_json_branch req hfmt]
         apply String.ext
         simp only [String.data_append, List.append_assoc]⟩
  · intro hfmt
    exact ⟨"Context time_window: " ++ pyOrStr req.time_window "Not specified" ++
        ". Inputs: " ++ pyListRepr (pyOrList req.inputs default_inputs) ++ ". " ++
        "Analyze the following content:\n\n" ++ req.input_text,
      by rw [build_user_instruction_md_branch req hfmt]
         apply String.ext
         simp only [String.data_append, List.append_assoc]⟩

/-- A request with every optional field supplied and non-empty. -/
def req_given : AnalyzeRequest :=
  { input_text := "EVIDENCE", output_format := "json",
    schema := "risk_assessment", time_window := some "2024-01",
    inputs := some ["policy_text", "logs"] }

/-- A markdown request with the optional fields absent. -/
def req_defaulted : AnalyzeRequest :=
  { input_text := "EVIDENCE", output_format := "markdown",
    schema := "event_summary", time_window := none, inputs := none }

/-- Witness for the amended C9 at two concrete requests: the caller-given
list and window are embedded in order when present and non-empty; the
defaults are embedded when absent; the two template branches are selected
by `output_format`; `input_text` is the verbatim suffix. -/
theorem build_user_instruction_embedding_witness :
    (∃ a b, build_user_instruction req_given
      = a ++ pyListRepr ["policy_text", "logs"] ++ b) ∧
    (∃ a b, build_user_instruction req_defaulted
      = a ++ pyListRepr default_inputs ++ b) ∧
    (∃ a b, build_user_instruction req_given
      = a ++ "Context time_window: " ++ "2024-01" ++ b) ∧
    (∃ a b, build_user_instruction req_defaulted
      = a ++ "Context time_window: " ++ "Not specified" ++ b) ∧
    (∃ a, build_user_instruction req_given = a ++ "EVIDENCE") ∧
    (∃ b, build_user_instruction req_given
      = "Produce a " ++ "risk_assessment" ++
          " JSON object strictly following the system JSON schema. " ++ b) ∧
    (∃ b, build_user_instruction req_defaulted
      = "Produce a Markdown report using the system Markdown template. " ++ b) :=
  ⟨(build_user_instruction_embedding req_given).1 ["policy_text", "logs"] rfl (by decide),
   (build_user_instruction_embedding req_defaulted).2.1 (Or.inl rfl),
   (build_user_instruction_embedding req_given).2.2.1 "2024-01" rfl (by decide),
   (build_user_instruction_embedding req_defaulted).2.2.2.1 (Or.inl rfl),
   (build_user_instruction_embedding req_given).2.2.2.2.1,
   (build_user_instruction_embedding req_given).2.2.2.2.2.1 rfl,
   (build_user_instruction_embedding req_defaulted).2.2.2.2.2.2 (by decide)⟩

/-! ## JSON values, `json.loads`, and `try_parse_json` -/

/-- A JSON value as produced by Python `json.loads`. -/
inductive Json where
  | null
  | bool (b : Bool)
  | num (n : Int)
  | str (s : String)
  | arr (items : List Json)
  | obj (fields : List (String × Json))

/-- Whether a JSON value is an object (a Python `dict`/mapping). -/
def Json.isObj : Json → Bool
  | .obj _ => true
  | _ => false

/-- Embedding of `analyze_service.try_parse_json(text)`, parameterised over
the JSON reader `loads` (Python's `json.loads`, which for a `str` argument
either returns a value or raises `json.JSONDecodeError`).  The helper is a
total function — the only exception `json.loads` raises on a string is
caught — and returns `(True, parsed, None)` on success or
`(False, None, "Invalid JSON: <err>. Raw: <text[:500]>")` on failure. -/
def try_parse_json (loads : String → Except String Json) (text : String) :
    Bool × Option Json × Option String :=
  match loads text with
  | .ok parsed => (true, some parsed, none)
  | .error je =>
    (false, none, some ("Invalid JSON: " ++ je ++ ". Raw: " ++ text.take 500))

/-- Whitespace skipping of the JSON reader. -/
def jsonSkipWs : List Char → List Char
  | [] => []
  | c :: cs =>
    if c = ' ' ∨ c = '\n' ∨ c = '\t' ∨ c = '\r' then jsonSkipWs cs else c :: cs

/-- Reads the remainder of a double-quoted JSON string (escape sequences are
not modelled; none of the inputs used here contain them). -/
def jsonTakeStr : List Char → Option (String × List Char)
  | [] => none
  | c :: cs =>
    if c = '"' then some ("", cs)
    else
      match jsonTakeStr cs with
      | none => none
      | some (s, rest) => some (String.singleton c ++ s, rest)

/-- The value of a non-empty digit run. -/
def jsonDigitsToNat (ds : List Char) : Nat :=
  ds.foldl (fun acc c => acc * 10 + (c.toNat - 48)) 0

mutual

/-- Modelled from the Python standard library `json.loads` (the reader used
by `try_parse_json`): a recursive-descent JSON reader over the character
list, with a fuel bound for termination.  It covers objects, arrays,
strings without escapes, integer numbers, `true`/`false`/`null` and
whitespace — the fragment exercised by this development; error strings are
abbreviated forms of CPython's messages. -/
def jsonReadVal : Nat → List Char → Except String (Json × List Char)
  | 0, _ => .error "Too deeply nested"
  | Nat.succ fuel, cs =>
    match jsonSkipWs cs with
    | 'n' :: 'u' :: 'l' :: 'l' :: rest => .ok (.null, rest)
    | 't' :: 'r' :: 'u' :: 'e' :: rest => .ok (.bool true, rest)
    | 'f' :: 'a' :: 'l' :: 's' :: 'e' :: rest => .ok (.bool false, rest)
    | '"' :: rest =>
      (match jsonTakeStr rest with
       | some (s, rest2) => .ok (.str s, rest2)
       | none => .error "Unterminated string")
    | '[' :: rest =>
      (match jsonSkipWs rest with
       | ']' :: rest2 => .ok (.arr [], rest2)
       | other =>
         match jsonReadArrItems fuel other with
         | .error e => .error e
         | .ok (vs, rest2) => .ok (.arr vs, rest2))
    | '{' :: rest =>
      (match jsonSkipWs rest with
       | '}' :: rest2 => .ok (.obj [], rest2)
       | other =>
         match jsonReadObjItems fuel other with
         | .error e => .error e
         | .ok (fs, rest2) => .ok (.obj fs, rest2))
    | '-' :: rest =>
      (match rest.takeWhile Char.isDigit, rest.dropWhile Char.isDigit with
       | [], _ => .error "Expecting value"
       | ds, rest2 => .ok (.num (-(jsonDigitsToNat ds : Int)), rest2))
    | other =>
      (match other.takeWhile Char.isDigit, other.dropWhile Char.isDigit with
       | [], _ => .error "Expecting value"
       | ds, rest2 => .ok (.num (jsonDigitsToNat ds), rest2))

/-- Item sequence of a non-empty JSON array, up to the closing bracket. -/
def jsonReadArrItems : Nat → List Char → Except String (List Json × List Char)
  | 0, _ => .error "Too deeply nested"
  | Nat.succ fuel, cs =>
    match jsonReadVal fuel cs with
    | .error e => .error e
    | .ok (v, rest) =>
      match jsonSkipWs rest with
      | ',' :: rest2 =>
        (match jsonReadArrItems fuel rest2 with
         | .error e => .error e
         | .ok (vs, rest3) => .ok (v :: vs, rest3))
      | ']' :: rest2 => .ok ([v], rest2)
      | _ => .error "Expecting comma delimiter"

/-- Member sequence of a non-empty JSON object, up to the closing brace. -/
def jsonReadObjItems : Nat → List Char →
    Except String (List (String × Json) × List Char)
  | 0, _ => .error "Too deeply nested"
  | Nat.succ fuel, cs =>
    match jsonSkipWs cs with
    | '"' :: rest =>
      (match jsonTakeStr rest with
       | none => .error "Unterminated string"
       | some (k, rest2) =>
         match jsonSkipWs rest2 with
         | ':' :: rest3 =>
           (match jsonReadVal fuel rest3 with
            | .error e => .error e
            | .ok (v, rest4) =>
              match jsonSkipWs rest4 with
              | ',' :: rest5 =>
                (match jsonReadObjItems fuel rest5 with
                 | .error e => .error e
                 | .ok (fs, rest6) => .ok ((k, v) :: fs, rest6))
              | '}' :: rest5 => .ok ([(k, v)], rest5)
              | _ => .error "Expecting comma delimiter")
         | _ => .error "Expecting colon delimiter")
    | _ => .error "Expecting property name"

end

/-- `json.loads(text)`: read one value and require only whitespace after it. -/
def jsonLoads (text : String) : Except String Json :=
  match jsonReadVal (text.length + 1) text.data with
  | .error e => .error e
  | .ok (v, rest) =>
    match jsonSkipWs rest with
    | [] => .ok v
    | _ => .error "Extra data"

/-- C6 counterexample: the parse helper's success payload is not always a
mapping.  `json.loads("3")` succeeds with the number `3`, so
`try_parse_json` returns `(True, 3, None)` — a parsed value that is not a
mapping — although the text parses as JSON. -/
theorem try_parse_json_nonmapping_success :
    try_parse_json jsonLoads "3" = (true, some (Json.num 3), none) ∧
    Json.isObj (Json.num 3) = false := by
  exact ⟨rfl, rfl⟩

/-- C6 as amended: for every reader and every input string the helper is
total (it never raises) and returns a tri-state outcome — on a successful
parse `(True, the parsed JSON value, None)` (a mapping exactly when the
text denotes a JSON object, not in general), and on a parse failure
`(False, None, diagnostic)` where the diagnostic ends with the first 500
characters of the raw text. -/
theorem try_parse_json_tristate (loads : String → Except String Json)
    (text : String) :
    (∀ v, loads text = .ok v → try_parse_json loads text = (true, some v, none)) ∧
    (∀ e, loads text = .error e →
      try_parse_json loads text
          = (false, none,
             some ("Invalid JSON: " ++ e ++ ". Raw: " ++ text.take 500)) ∧
      ∃ d pre, try_parse_json loads text = (false, none, some d) ∧
        d = pre ++ text.take 500) := by
  constructor
  · intro v hv
    simp [try_parse_json, hv]
  · intro e he
    refine ⟨by simp [try_parse_json, he], ?_⟩
    refine ⟨"Invalid JSON: " ++ e ++ ". Raw: " ++ text.take 500,
      "Invalid JSON: " ++ e ++ ". Raw: ", by simp [try_parse_json, he], ?_⟩
    apply String.ext
    simp only [String.data_append, List.append_assoc]

/-- Witness for the amended C6: a JSON object parses to `(True, obj, None)`
and the literal text `not json` fails to `(False, None, diagnostic)` whose
tail is the raw text (shorter than 500 characters, hence kept whole). -/
theorem try_parse_json_tristate_witness :
    try_parse_json jsonLoads "[1, 2]"
        = (true, some (Json.arr [Json.num 1, Json.num 2]), none) ∧
    try_parse_json jsonLoads "not json"
        = (false, none,
           some ("Invalid JSON: " ++ "Expecting value" ++ ". Raw: " ++
             ("not json" : String).take 500)) :=
  ⟨(try_parse_json_tristate jsonLoads "[1, 2]").1
      (Json.arr [Json.num 1, Json.num 2]) rfl,
   ((try_parse_json_tristate jsonLoads "not json").2 "Expecting value" rfl).1⟩

/-! ## Audit sink and orchestration -/

/-- A row of the `analyses` table as inserted by `audit_save`. -/
structure AuditRow where
  created_at : String
  model : String
  output_format : String
  schema : Option String
  prompt_chars : Nat
  input_preview : String
  response_preview : String
deriving DecidableEq

/-- A persistence failure of the SQLite store (any exception raised inside
the `with get_connection()` block of `audit_save`). -/
inductive DbError where
  | failure (msg : String)
deriving DecidableEq

/-- The row `audit_save` builds for the INSERT:
`created_at = utcnow().isoformat(timespec="seconds") + "Z"` (the clock text
is the `now_iso` parameter), previews truncated with `input_text[:500]` and
`response_text[:1000]`. -/
def audit_row (now_iso model output_format : String) (schema : Option String)
    (prompt_chars : Nat) (input_text response_text : String) : AuditRow :=
  { created_at := now_iso ++ "Z", model := model,
    output_format := output_format, schema := schema,
    prompt_chars := prompt_chars, input_preview := input_text.take 500,
    response_preview := response_text.take 1000 }

/-- Embedding of `analyze_service.audit_save(...)`: attempts to persist the
audit row and swallows every persistence error (`except Exception: pass`),
so the call itself always returns successfully.  `persist` stands for the
SQLite INSERT + commit. -/
def audit_save (persist : AuditRow → Except DbError Unit)
    (now_iso model output_format : String) (schema : Option String)
    (prompt_chars : Nat) (input_text response_text : String) :
    Except DbError Unit :=
  match persist (audit_row now_iso model output_format schema prompt_chars
      input_text response_text) with
  | .ok _ => .ok ()
  | .error _ => .ok ()

/-- The runtime state `run_analysis` reads: the prompt file contents (absent
if the file is missing), the optional OpenAI client — `none` embeds
`_openai_client is None or not OPENAI_API_KEY`; when available, the client
maps the message list to either the possibly-`None` assistant content or a
transport error —, the audit persistence action, the clock text, and the
allow-listed `OPENAI_MODEL`. -/
structure OrchestratorState where
  prompt_file : Option String
  client : Option (List (String × String) → Except String (Option String))
  audit_persist : AuditRow → Except DbError Unit
  now_iso : String
  model : String

/-- The Python exceptions the orchestrator can raise:
`FileNotFoundError` from `load_system_prompt` and `RuntimeError` from
`call_openai`. -/
inductive PyExn where
  | fileNotFound (msg : String)
  | runtimeError (msg : String)
deriving DecidableEq

/-- Embedding of `analyze_service.load_system_prompt()`: the file contents,
or `FileNotFoundError` when `PROMPT_PATH` does not exist (the Python
message also names the path; only its kind matters here). -/
def load_system_prompt (st : OrchestratorState) : Except PyExn String :=
  match st.prompt_file with
  | none => .error (.fileNotFound "System prompt not found")
  | some text => .ok text

/-- Embedding of `analyze_service.call_openai(messages)`: `RuntimeError`
when no client/key is configured; otherwise the client call, whose `None`
content collapses to `""` (`content or ""`) and whose exception is wrapped
in `RuntimeError("OpenAI call failed: ...")`. -/
def call_openai
    (client : Option (List (String × String) → Except String (Option String)))
    (messages : List (String × String)) : Except PyExn String :=
  match client with
  | none =>
    .error (.runtimeError "OPENAI_API_KEY not configured or OpenAI client unavailable.")
  | some invoke =>
    match invoke messages with
    | .ok content => .ok (content.getD "")
    | .error ex => .error (.runtimeError ("OpenAI call failed: " ++ ex))

/-- Embedding of `analyze_service.run_analysis(req)`.  The second component
of the result instruments the control flow: it lists the audit rows passed
to `audit_save` during the run (the Python function body reaches its
`audit_save(...)` statement only after `call_openai` has returned).
`init_db()` only creates tables and does not influence the control flow
modelled here.  An exception escaping `load_system_prompt` or
`call_openai` propagates to the caller, who then receives no text. -/
def run_analysis (st : OrchestratorState) (req : AnalyzeRequest) :
    Except PyExn String × List AuditRow :=
  match load_system_prompt st with
  | .error e => (.error e, [])
  | .ok system_prompt =>
    match call_openai st.client
        [("system", system_prompt), ("user", build_user_instruction req)] with
    | .error e => (.error e, [])
    | .ok assistant_text =>
      let sch := if req.output_format = "json" then some req.schema else none
      let pc := system_prompt.length + (build_user_instruction req).length
      let _ := audit_save st.audit_persist st.now_iso st.model
          req.output_format sch pc req.input_text assistant_text
      (.ok assistant_text,
       [audit_row st.now_iso st.model req.output_format sch pc
          req.input_text assistant_text])

/-- Length of a string prefix, through the character list. -/
theorem string_length_take (s : String) (n : Nat) :
    (s.take n).length = min n s.length := by
  have h : (s.take n).data = s.data.take n := String.data_take s n
  have h1 : (s.take n).length = (s.take n).data.length := rfl
  have h2 : s.length = s.data.length := rfl
  rw [h1, h, h2, List.length_take]

/-- C7: the row `audit_save` hands to the store carries exactly the first
500 characters of `input_text` as `input_preview` and exactly the first
1000 characters of `response_text` as `response_preview`; in particular a
10,000-character `input_text` yields a 500-character preview. -/
theorem audit_row_truncates (now_iso model output_format : String)
    (schema : Option String) (prompt_chars : Nat)
    (input_text response_text : String) :
    (audit_row now_iso model output_format schema prompt_chars input_text
        response_text).input_preview = input_text.take 500 ∧
    (audit_row now_iso model output_format schema prompt_chars input_text
        response_text).response_preview = response_text.take 1000 ∧
    (input_text.length = 10000 →
      (audit_row now_iso model output_format schema prompt_chars input_text
          response_text).input_preview.length = 500) := by
  refine ⟨by simp [audit_row], by simp [audit_row], fun h => ?_⟩
  have hp : (audit_row now_iso model output_format schema prompt_chars
      input_text response_text).input_preview = input_text.take 500 := by
    simp [audit_row]
  rw [hp, string_length_take, h]
  omega

/-- A 10,000-character input text. -/
def sample_long_input : String := String.mk (List.replicate 10000 'x')

/-- Witness for C7 at a concrete 10,000-character input: the audit row's
input preview has exactly 500 characters. -/
theorem audit_row_truncates_witness :
    sample_long_input.length = 10000 ∧
    (audit_row "2024-01-01T00:00:00" "gpt-3.5-turbo" "json"
        (some "risk_assessment") 42 sample_long_input "resp").input_preview.length
      = 500 := by
  have hlen : sample_long_input.length = 10000 := by
    unfold sample_long_input
    rw [String.length_mk, List.length_replicate]
  exact ⟨hlen,
    (audit_row_truncates "2024-01-01T00:00:00" "gpt-3.5-turbo" "json"
      (some "risk_assessment") 42 sample_long_input "resp").2.2 hlen⟩

/-- C8: `audit_save` never fails observably — for every outcome of the
underlying INSERT it returns success — and the enclosing `run_analysis`
does not depend on the audit persistence action at all: replacing it by any
other action (a failing one included) leaves both the returned result and
the attempted audit rows unchanged, so an audit failure can never fail an
analysis request. -/
theorem audit_save_best_effort :
    (∀ (persist : AuditRow → Except DbError Unit)
       (now_iso model output_format : String) (schema : Option String)
       (prompt_chars : Nat) (input_text response_text : String),
      audit_save persist now_iso model output_format schema prompt_chars
          input_text response_text = .ok ()) ∧
    (∀ (st : OrchestratorState) (req : AnalyzeRequest)
       (p₁ p₂ : AuditRow → Except DbError Unit),
      run_analysis { st with audit_persist := p₁ } req
        = run_analysis { st with audit_persist := p₂ } req) := by
  constructor
  · intro persist now_iso model output_format schema prompt_chars it rt
    unfold audit_save
    cases persist (audit_row now_iso model output_format schema prompt_chars it rt) <;> rfl
  · intro st req p₁ p₂
    cases st
    rfl

/-- The scenario request of the spec:
`{input_text: "login failure user=42", output_format: "json",
schema: "risk_assessment"}`. -/
def req_sample : AnalyzeRequest :=
  { input_text := "login failure user=42", output_format := "json",
    schema := "risk_assessment" }

/-- A runtime state whose prompt file exists but whose backend call fails. -/
def st_backend_down : OrchestratorState :=
  { prompt_file := some "SYSTEM PROMPT",
    client := some (fun _ => .error "boom"),
    audit_persist := fun _ => .ok (),
    now_iso := "2024-01-01T00:00:00", model := "gpt-3.5-turbo" }

/-- A runtime state whose backend call succeeds but whose audit store is
broken. -/
def st_backend_up : OrchestratorState :=
  { prompt_file := some "SYSTEM PROMPT",
    client := some (fun _ => .ok (some "OUT")),
    audit_persist := fun _ => .error (.failure "db down"),
    now_iso := "2024-01-01T00:00:00", model := "gpt-3.5-turbo" }

/-- C2 counterexample: when the Generation Client call fails, `run_analysis`
does not attempt any audit write — the `RuntimeError` raised inside
`call_openai` propagates before the `audit_save(...)` statement is reached,
so the attempted-audit trace is empty, the overall call fails, and the
caller receives no result.  The audit write is therefore not attempted
"unconditionally, regardless of whether step 3 succeeded or failed". -/
theorem run_analysis_failure_no_audit :
    run_analysis st_backend_down req_sample
      = (.error (.runtimeError ("OpenAI call failed: " ++ "boom")), []) := rfl

/-- C2 as amended: the audit write is attempted only after a successful
generation call.  When the prompt loads and the Generation Client call
fails, `run_analysis` fails with that very error and attempts no audit
write; whenever `run_analysis` fails the trace of attempted audit writes is
empty; and on success exactly one audit write is attempted. -/
theorem run_analysis_audit_only_after_success (st : OrchestratorState)
    (req : AnalyzeRequest) :
    (∀ sp e, st.prompt_file = some sp →
      call_openai st.client
          [("system", sp), ("user", build_user_instruction req)] = .error e →
      run_analysis st req = (.error e, [])) ∧
    (∀ e, (run_analysis st req).1 = .error e → (run_analysis st req).2 = []) ∧
    (∀ t, (run_analysis st req).1 = .ok t → (run_analysis st req).2.length = 1) := by
  refine ⟨?_, ?_, ?_⟩
  · intro sp e hsp hcall
    simp [run_analysis, load_system_prompt, hsp, hcall]
  · intro e he
    cases hl : load_system_prompt st with
    | error e2 => simp [run_analysis, hl]
    | ok sp =>
      cases hc : call_openai st.client
          [("system", sp), ("user", build_user_instruction req)] with
      | error e2 => simp [run_analysis, hl, hc]
      | ok t => simp [run_analysis, hl, hc] at he
  · intro t ht
    cases hl : load_system_prompt st with
    | error e2 => rw [run_analysis, hl] at ht; simp at ht
    | ok sp =>
      cases hc : call_openai st.client
          [("system", sp), ("user", build_user_instruction req)] with
      | error e2 => simp [run_analysis, hl, hc] at ht
      | ok t2 => simp [run_analysis, hl, hc]

/-- Witness for the amended C2: with a failing backend the run fails with
the wrapped transport error and no audit attempt; with a working backend
(and even a broken audit store) exactly one audit write is attempted. -/
theorem run_analysis_audit_only_after_success_witness :
    run_analysis st_backend_down req_given
      = (.error (.runtimeError ("OpenAI call failed: " ++ "boom")), []) ∧
    (run_analysis st_backend_up req_given).2.length = 1 :=
  ⟨(run_analysis_audit_only_after_success st_backend_down req_given).1
      "SYSTEM PROMPT" (.runtimeError ("OpenAI call failed: " ++ "boom")) rfl rfl,
   (run_analysis_audit_only_after_success st_backend_up req_given).2.2 "OUT" rfl⟩
